import Mathlib

/-!
Verification of the credential and service-endpoint resolution subsystem of
the GCE persistent-disk CSI driver (package gcecloudprovider,
pkg/gce-cloud-provider/compute/gce.go).

The Go code is shallowly embedded: every function under verification
(readConfig, generateTokenSource, newOauthClient, createCloudService,
createAlphaCloudService, getProjectAndZone, CreateCloudProvider, IsGCEError,
IsGCENotFoundError, IsGCEInvalidError) becomes an executable Lean definition.
Ambient effects (the filesystem, the GOOGLE_APPLICATION_CREDENTIALS
environment variable, the instance metadata service, the oauth2 library, the
behaviour of TokenSource.Token and of compute.New / alpha.New) are supplied
by an explicit environment record `Env`; the invocation order of the
components and the number of Token calls are tracked in an explicit
`BuildState` threaded through construction, standing for the trace of the
sequential Go control flow.
-/

/-- Decidable equality for Except, used to evaluate concrete runs. -/
instance {ε α : Type} [DecidableEq ε] [DecidableEq α] : DecidableEq (Except ε α) := fun a b =>
  match a, b with
  | Except.ok x, Except.ok y =>
      if h : x = y then isTrue (by rw [h]) else isFalse (by simp [h])
  | Except.error x, Except.error y =>
      if h : x = y then isTrue (by rw [h]) else isFalse (by simp [h])
  | Except.ok _, Except.error _ => isFalse (by simp)
  | Except.error _, Except.ok _ => isFalse (by simp)

/-- Whether an Except value is a success (the shape of a nil Go error). -/
def exceptIsOk {ε α : Type} : Except ε α → Bool
  | Except.ok _ => true
  | Except.error _ => false

namespace GceCloudProvider

/-! ## Data model (types ConfigFile, ConfigGlobal, tokens, scopes) -/

/-- gce.go: `type ConfigGlobal struct { TokenURL, TokenBody, ProjectId, Zone string }`. -/
structure ConfigGlobal where
  tokenURL : String
  tokenBody : String
  projectId : String
  zone : String
deriving Repr, DecidableEq

/-- gce.go: `type ConfigFile struct { Global ConfigGlobal }`. -/
structure ConfigFile where
  global : ConfigGlobal
deriving Repr, DecidableEq

/-- compute.CloudPlatformScope of the Go compute client library. -/
def CloudPlatformScope : String := "https://www.googleapis.com/auth/cloud-platform"

/-- compute.ComputeScope of the Go compute client library. -/
def ComputeScope : String := "https://www.googleapis.com/auth/compute"

/-- An oauth2 bearer token as produced by TokenSource.Token. -/
structure Token where
  accessToken : String
deriving Repr, DecidableEq

/-- The closed set of oauth2.TokenSource values this file can put in play:
the operator-supplied alternate-URL source (NewAltTokenSource), the ambient
default application-credential source (google.DefaultTokenSource), and the
instance-metadata-backed source (google.ComputeTokenSource). -/
inductive TokenSource where
  | alt (tokenURL : String) (tokenBody : String)
  | defaultSource (scopes : List String)
  | compute (account : String) (scope : String)
deriving Repr, DecidableEq

/-- gce.go calls `NewAltTokenSource(configFile.Global.TokenURL, configFile.Global.TokenBody)`. -/
def NewAltTokenSource (tokenURL tokenBody : String) : TokenSource :=
  TokenSource.alt tokenURL tokenBody

/-- gce.go calls `google.ComputeTokenSource("", compute.CloudPlatformScope)`. -/
def ComputeTokenSource (account : String) (scope : String) : TokenSource :=
  TokenSource.compute account scope

/-- A context.Context, abstracted to the one fact relevant here: the time at
which the caller cancels it (none = never cancelled). -/
structure Ctx where
  cancelledAt : Option Nat
deriving Repr, DecidableEq

/-- The ambient world of the Go process. Each field stands for one external
effect the code under src/ performs:
 - `openFile p` is `os.Open(p)` (ok = a file-handle id);
 - `parseConfig h` is `gcfg.FatalOnly(gcfg.ReadInto(cfg, reader))` on handle h;
 - `defaultTokenSource` is the result of `google.DefaultTokenSource(ctx,
   CloudPlatformScope, ComputeScope)` (the library returns a source exactly
   when it returns no error);
 - `googleAppCreds` is `os.LookupEnv("GOOGLE_APPLICATION_CREDENTIALS")`;
 - `onGCE` is `metadata.OnGCE()`;
 - `metadataZone`, `metadataProjectID` are `metadata.Zone()`, `metadata.ProjectID()`;
 - `token ts n` is the result of the (n+1)-th call of `ts.Token()` made during
   this construction (the source is stateful and shared, so calls are counted
   globally; a nil source, impossible after the error check, is `token none`);
 - `computeNew` / `alphaNew` are the errors of `compute.New(client)` /
   `alpha.New(client)` (none = success);
 - `goos`, `goarch` are runtime.GOOS and runtime.GOARCH. -/
structure Env where
  openFile : String → Except String Nat
  parseConfig : Nat → Except String ConfigFile
  defaultTokenSource : Except String TokenSource
  googleAppCreds : Option String
  onGCE : Bool
  metadataZone : Except String String
  metadataProjectID : Except String String
  token : Option TokenSource → Nat → Except String Token
  computeNew : Option String
  alphaNew : Option String
  goos : String
  goarch : String

/-- The token-source value of `google.DefaultTokenSource` as Go sees it (nil
when construction errored). -/
def defaultSourceValue (env : Env) : Option TokenSource :=
  match env.defaultTokenSource with
  | Except.ok ts => some ts
  | Except.error _ => none

/-- The error value of `google.DefaultTokenSource` as Go sees it. -/
def defaultSourceError (env : Env) : Option String :=
  match env.defaultTokenSource with
  | Except.ok _ => none
  | Except.error e => some e

/-! ## readConfig (gce.go lines 165-181) -/

/-- What readConfig produces: the Go return value, plus the list of file
handles `defer reader.Close()` released, so resource release is observable. -/
structure ReadConfigOut where
  result : Except String (Option ConfigFile)
  closedHandles : List Nat
deriving Repr, DecidableEq

/-- gce.go readConfig: empty path means no configuration (nil, nil); a file
that cannot be opened or parsed is an error; an opened handle is closed on
every exit path by the deferred Close. (The Go error strings read
"could not open" / "could not read" here stand for the Go wording.) -/
def readConfig (env : Env) (configPath : String) : ReadConfigOut :=
  if configPath = "" then
    { result := Except.ok none, closedHandles := [] }
  else
    match env.openFile configPath with
    | Except.error e =>
        { result := Except.error
            ("could not open cloud provider configuration at " ++ configPath ++ ": " ++ e),
          closedHandles := [] }
    | Except.ok reader =>
        match env.parseConfig reader with
        | Except.error e =>
            { result := Except.error
                ("could not read cloud provider configuration at " ++ configPath ++ ": " ++ e),
              closedHandles := [reader] }
        | Except.ok cfg =>
            { result := Except.ok (some cfg), closedHandles := [reader] }

/-! ## generateTokenSource (gce.go lines 115-163) -/

/-- The condition of gce.go line 116:
`configFile != nil && configFile.Global.TokenURL != "" && configFile.Global.TokenURL != "nil"`. -/
def altTokenCondition : Option ConfigFile → Bool
  | none => false
  | some cf => cf.global.tokenURL != "" && cf.global.tokenURL != "nil"

/-- A configuration whose tokenURL is empty or that is absent altogether (the
guard of the claims about the default branch). -/
def tokenURLUnset : Option ConfigFile → Bool
  | none => true
  | some cf => cf.global.tokenURL == ""

/-- The field configFile.Global.TokenURL (read only under a non-nil configFile). -/
def configTokenURL : Option ConfigFile → String
  | none => ""
  | some cf => cf.global.tokenURL

/-- The field configFile.Global.TokenBody (read only under a non-nil configFile). -/
def configTokenBody : Option ConfigFile → String
  | none => ""
  | some cf => cf.global.tokenBody

/-- The default branch of generateTokenSource (gce.go lines 128-162):
`tokenSource, err := google.DefaultTokenSource(ctx, CloudPlatformScope,
ComputeScope)`; if GOOGLE_APPLICATION_CREDENTIALS is not set and
metadata.OnGCE(), the source (but not the error) is replaced by
`google.ComputeTokenSource("", CloudPlatformScope)`; `return tokenSource, err`. -/
def generateDefaultTokenSource (env : Env) : Option TokenSource × Option String :=
  let tokenSource := defaultSourceValue env
  let err := defaultSourceError env
  match env.googleAppCreds with
  | some _ => (tokenSource, err)
  | none =>
      if env.onGCE then
        (some (ComputeTokenSource "" CloudPlatformScope), err)
      else
        (tokenSource, err)

/-- gce.go generateTokenSource: the alternate-URL branch when
altTokenCondition holds, the default branch otherwise. Returns the pair
(token source, error) exactly as the Go function returns two values. -/
def generateTokenSource (env : Env) (configFile : Option ConfigFile) :
    Option TokenSource × Option String :=
  if altTokenCondition configFile then
    (some (NewAltTokenSource (configTokenURL configFile) (configTokenBody configFile)),
     none)
  else
    generateDefaultTokenSource env

/-! ## getProjectAndZone (gce.go lines 231-262) -/

/-- gce.go getProjectAndZone: zone from config if non-empty else
metadata.Zone() (failure fatal), then projectID from config if non-empty else
metadata.ProjectID() (failure fatal); returns (projectID, zone). -/
def getProjectAndZone (env : Env) (config : Option ConfigFile) :
    Except String (String × String) :=
  match
    (match config with
     | none => env.metadataZone
     | some cf => if cf.global.zone = "" then env.metadataZone else Except.ok cf.global.zone)
  with
  | Except.error e => Except.error e
  | Except.ok zone =>
      match
        (match config with
         | none => env.metadataProjectID
         | some cf =>
             if cf.global.projectId = "" then env.metadataProjectID
             else Except.ok cf.global.projectId)
      with
      | Except.error e => Except.error e
      | Except.ok projectID => Except.ok (projectID, zone)

/-! ## IsGCEError and friends (gce.go lines 264-290) -/

/-- One entry of googleapi.Error.Errors; only the Reason field is consulted. -/
structure ErrorItem where
  reason : String
deriving Repr, DecidableEq

/-- googleapi.Error, reduced to its Errors list. -/
structure GoogleapiError where
  errors : List ErrorItem
deriving Repr, DecidableEq

/-- A Go error value as the classification helper can receive it: a
*googleapi.Error, any other non-nil error, or a nil error (the type assertion
`err.(*googleapi.Error)` yields ok=false for the latter two). -/
inductive GoError where
  | googleapi (e : GoogleapiError)
  | plain (msg : String)
  | nilError
deriving Repr, DecidableEq

/-- gce.go IsGCEError: true when err is a *googleapi.Error one of whose
sub-errors has the given Reason. -/
def IsGCEError (err : GoError) (reason : String) : Bool :=
  match err with
  | GoError.googleapi apiErr => apiErr.errors.any (fun e => e.reason == reason)
  | GoError.plain _ => false
  | GoError.nilError => false

/-- gce.go IsGCENotFoundError: IsGCEError with reason "notFound". -/
def IsGCENotFoundError (err : GoError) : Bool :=
  IsGCEError err "notFound"

/-- gce.go IsGCEInvalidError: IsGCEError with reason "invalid". -/
def IsGCEInvalidError (err : GoError) : Bool :=
  IsGCEError err "invalid"

/-! ## The token warm-up loop: wait.PollImmediate (gce.go lines 214-229)

gce.go newOauthClient calls `wait.PollImmediate(5*time.Second, 30*time.Second,
cond)` from k8s.io/apimachinery/pkg/util/wait. That function takes only an
interval, a timeout and a condition — it has no context parameter. It runs the
condition once immediately, then once per interval tick until the timeout
channel fires; the tick that coincides with the timeout races it, and the
model resolves the race in favour of the timeout. Time is counted in seconds. -/

/-- The Go error wait.ErrWaitTimeout returned when the poll ceiling elapses. -/
def errWaitTimeout : String := "timed out waiting for the condition"

/-- Times of the poller ticks: interval, 2*interval, ..., strictly below the
timeout. -/
def pollTicks (interval timeout : Nat) : List Nat :=
  ((List.range (timeout / interval)).map (fun k => (k + 1) * interval)).filter
    (fun t => t < timeout)

/-- Times at which PollImmediate runs the condition: once immediately (time
0), then at every poller tick. -/
def pollTimes (interval timeout : Nat) : List Nat :=
  0 :: pollTicks interval timeout

/-- What a PollImmediate run did: its error (none = the condition succeeded),
the time at which it returned, and how many times it ran the condition. -/
structure PollOutcome where
  err : Option String
  elapsed : Nat
  attempts : Nat
deriving Repr, DecidableEq

/-- The poll loop over the remaining condition-run times: a condition failure
is retried at the next time; exhausting the times returns ErrWaitTimeout at
the timeout. `n` counts the condition runs already made. -/
def pollGo (cond : Nat → Bool) (timeout : Nat) : List Nat → Nat → PollOutcome
  | [], n => { err := some errWaitTimeout, elapsed := timeout, attempts := n }
  | t :: rest, n =>
      if cond n then { err := none, elapsed := t, attempts := n + 1 }
      else pollGo cond timeout rest (n + 1)

/-- wait.PollImmediate(interval, timeout, cond), where `cond i` is the result
of the (i+1)-th run of the condition. -/
def pollImmediate (interval timeout : Nat) (cond : Nat → Bool) : PollOutcome :=
  pollGo cond timeout (pollTimes interval timeout) 0

/-! ## newOauthClient and the service client factories (gce.go lines 183-229) -/

/-- The http.Client returned by `oauth2.NewClient(ctx, tokenSource)`. -/
structure HttpClient where
  ctx : Ctx
  tokenSource : Option TokenSource
deriving Repr, DecidableEq

/-- One invocation of a construction component, recorded in order. -/
inductive Event where
  | readConfigEv
  | generateTokenSourceEv
  | warmupEv
  | stableClientEv
  | alphaClientEv
  | getProjectAndZoneEv
deriving Repr, DecidableEq, BEq

/-- State threaded through provider construction: how many Token calls have
been made on the (shared, stateful) token source, and the trace of component
invocations so far. -/
structure BuildState where
  tokenCalls : Nat
  trace : List Event
deriving Repr, DecidableEq

/-- Whether the (n+1)-th call of tokenSource.Token during this construction
succeeds. -/
def tokenOk (env : Env) (tokenSource : Option TokenSource) (n : Nat) : Bool :=
  match env.token tokenSource n with
  | Except.ok _ => true
  | Except.error _ => false

/-- The condition newOauthClient hands to PollImmediate: run tokenSource.Token
once; an error means "not ready, retry" (false), a token means done (true).
`start` is the number of Token calls made before this poll began. -/
def warmupCond (env : Env) (tokenSource : Option TokenSource) (start : Nat) :
    Nat → Bool :=
  fun i => tokenOk env tokenSource (start + i)

/-- The PollImmediate outcome of the warm-up in newOauthClient: cadence 5,
ceiling 30. -/
def warmupOutcome (env : Env) (tokenSource : Option TokenSource) (start : Nat) :
    PollOutcome :=
  pollImmediate 5 30 (warmupCond env tokenSource start)

/-- gce.go newOauthClient: poll the token source (5-second cadence, 30-second
ceiling) until a Token call succeeds; on timeout return the poll error and no
client; on success return `oauth2.NewClient(ctx, tokenSource)`. Note that
wait.PollImmediate receives no context: `ctx` is used only to build the
returned client. -/
def newOauthClient (env : Env) (ctx : Ctx) (tokenSource : Option TokenSource)
    (st : BuildState) : Except String HttpClient × BuildState :=
  let outcome := warmupOutcome env tokenSource st.tokenCalls
  let st1 : BuildState :=
    { tokenCalls := st.tokenCalls + outcome.attempts,
      trace := st.trace ++ [Event.warmupEv] }
  match outcome.err with
  | some e => (Except.error e, st1)
  | none => (Except.ok { ctx := ctx, tokenSource := tokenSource }, st1)

/-- A compute.Service or alpha.Service: the authenticated client plus the
UserAgent stamped after construction. -/
structure Service where
  client : HttpClient
  userAgent : String
deriving Repr, DecidableEq

/-- gce.go: `fmt.Sprintf("GCE CSI Driver/%s (%s %s)", vendorVersion,
runtime.GOOS, runtime.GOARCH)`. -/
def userAgentString (env : Env) (vendorVersion : String) : String :=
  "GCE CSI Driver/" ++ vendorVersion ++ " (" ++ env.goos ++ " " ++ env.goarch ++ ")"

/-- gce.go createCloudServiceWithDefaultServiceAccount: newOauthClient (which
performs the warm-up), then compute.New(client), then stamp the UserAgent. -/
def createCloudServiceWithDefaultServiceAccount (env : Env) (ctx : Ctx)
    (vendorVersion : String) (tokenSource : Option TokenSource) (st : BuildState) :
    Except String Service × BuildState :=
  match newOauthClient env ctx tokenSource st with
  | (Except.error e, st1) => (Except.error e, st1)
  | (Except.ok client, st1) =>
      let st2 : BuildState := { st1 with trace := st1.trace ++ [Event.stableClientEv] }
      match env.computeNew with
      | some e => (Except.error e, st2)
      | none =>
          (Except.ok { client := client, userAgent := userAgentString env vendorVersion },
           st2)

/-- gce.go createCloudService: delegates to
createCloudServiceWithDefaultServiceAccount. -/
def createCloudService (env : Env) (ctx : Ctx) (vendorVersion : String)
    (tokenSource : Option TokenSource) (st : BuildState) :
    Except String Service × BuildState :=
  createCloudServiceWithDefaultServiceAccount env ctx vendorVersion tokenSource st

/-- gce.go createAlphaCloudService: newOauthClient (a second warm-up on the
same token source), then alpha.New(client), then stamp the UserAgent. -/
def createAlphaCloudService (env : Env) (ctx : Ctx) (vendorVersion : String)
    (tokenSource : Option TokenSource) (st : BuildState) :
    Except String Service × BuildState :=
  match newOauthClient env ctx tokenSource st with
  | (Except.error e, st1) => (Except.error e, st1)
  | (Except.ok client, st1) =>
      let st2 : BuildState := { st1 with trace := st1.trace ++ [Event.alphaClientEv] }
      match env.alphaNew with
      | some e => (Except.error e, st2)
      | none =>
          (Except.ok { client := client, userAgent := userAgentString env vendorVersion },
           st2)

/-! ## CreateCloudProvider (gce.go lines 75-113) -/

/-- The CloudProvider struct: both services, project, zone and the (initially
empty) zones cache. -/
structure CloudProvider where
  service : Service
  alphaService : Service
  project : String
  zone : String
  zonesCache : List (String × List String)
deriving Repr, DecidableEq

/-- The trace after readConfig and generateTokenSource have run. -/
def traceAfterTokenSource : List Event :=
  [Event.readConfigEv, Event.generateTokenSourceEv]

/-- gce.go CreateCloudProvider: readConfig; generateTokenSource (return on
its error); createCloudService; createAlphaCloudService; getProjectAndZone
(its error wrapped); assemble the CloudProvider with a fresh empty zonesCache.
The first failing step returns its error and nothing later runs. -/
def CreateCloudProvider (env : Env) (ctx : Ctx) (vendorVersion configPath : String) :
    Except String CloudProvider × BuildState :=
  match (readConfig env configPath).result with
  | Except.error e => (Except.error e, { tokenCalls := 0, trace := [Event.readConfigEv] })
  | Except.ok configFile =>
      match (generateTokenSource env configFile).2 with
      | some e => (Except.error e, { tokenCalls := 0, trace := traceAfterTokenSource })
      | none =>
          let tokenSource := (generateTokenSource env configFile).1
          let st1 : BuildState := { tokenCalls := 0, trace := traceAfterTokenSource }
          match createCloudService env ctx vendorVersion tokenSource st1 with
          | (Except.error e, st2) => (Except.error e, st2)
          | (Except.ok svc, st2) =>
              match createAlphaCloudService env ctx vendorVersion tokenSource st2 with
              | (Except.error e, st3) => (Except.error e, st3)
              | (Except.ok alphasvc, st3) =>
                  let st4 : BuildState :=
                    { st3 with trace := st3.trace ++ [Event.getProjectAndZoneEv] }
                  match getProjectAndZone env configFile with
                  | Except.error e =>
                      (Except.error ("Failed getting Project and Zone: " ++ e), st4)
                  | Except.ok pz =>
                      (Except.ok
                        { service := svc, alphaService := alphasvc,
                          project := pz.1, zone := pz.2, zonesCache := [] },
                       st4)

/-! ## Concrete environments used to run the model on explicit inputs -/

/-- The default application-credential source with the two scopes gce.go
requests. -/
def tsDefault : TokenSource :=
  TokenSource.defaultSource [CloudPlatformScope, ComputeScope]

/-- A configuration file that sets only zone=us-central1-a. -/
def cfgZoneOnly : ConfigFile :=
  { global := { tokenURL := "", tokenBody := "", projectId := "", zone := "us-central1-a" } }

/-- A configuration file with a non-empty, non-"nil" token-url. -/
def cfgAlt : ConfigFile :=
  { global := { tokenURL := "https://alt.example/token", tokenBody := "body",
                projectId := "", zone := "" } }

/-- A fully healthy world: the config file at any path opens (handle 7) and
parses to cfgZoneOnly, default credentials exist, the environment variable is
set, the process is on GCE, metadata answers, every Token call succeeds, and
both client constructors succeed. -/
def envGood : Env :=
  { openFile := fun _ => Except.ok 7,
    parseConfig := fun _ => Except.ok cfgZoneOnly,
    defaultTokenSource := Except.ok tsDefault,
    googleAppCreds := some "/etc/sa.json",
    onGCE := true,
    metadataZone := Except.ok "us-central1-b",
    metadataProjectID := Except.ok "my-project",
    token := fun _ _ => Except.ok { accessToken := "tok" },
    computeNew := none,
    alphaNew := none,
    goos := "linux",
    goarch := "amd64" }

/-- envGood with a token source whose Token call always errors. -/
def envAlwaysFail : Env :=
  { envGood with token := fun _ _ => Except.error "boom" }

/-- envGood with a token source that errors on its first Token call and
succeeds from the second call on. -/
def envSecondTry : Env :=
  { envGood with token := fun _ n =>
      if n = 0 then Except.error "cold start" else Except.ok { accessToken := "tok" } }

/-- envGood with no GOOGLE_APPLICATION_CREDENTIALS, on GCE, and a failing
google.DefaultTokenSource. -/
def envAdcErr : Env :=
  { envGood with googleAppCreds := none, onGCE := true,
                 defaultTokenSource := Except.error "adc error" }

/-- A never-cancelled context. -/
def ctxLive : Ctx := { cancelledAt := none }

/-- A context its caller cancelled at time 0, before the first poll tick. -/
def ctxCancelled : Ctx := { cancelledAt := some 0 }

/-! ## Helper lemmas about the poll loop -/

/-- A condition that always fails drives pollGo through every remaining
condition-run time and out at the timeout. -/
theorem pollGo_allFail (cond : Nat → Bool) (timeout : Nat)
    (h : ∀ i, cond i = false) :
    ∀ (l : List Nat) (n : Nat),
      pollGo cond timeout l n =
        { err := some errWaitTimeout, elapsed := timeout, attempts := n + l.length } := by
  intro l
  induction l with
  | nil => intro n; simp [pollGo]
  | cons t rest ih =>
      intro n
      simp only [pollGo, h n, if_neg, Bool.false_eq_true, ite_false, ih (n + 1),
        List.length_cons, PollOutcome.mk.injEq, true_and]
      omega

/-- A pollGo run that returns an error ran to the full timeout. -/
theorem pollGo_err_elapsed (cond : Nat → Bool) (timeout : Nat) :
    ∀ (l : List Nat) (n : Nat),
      (pollGo cond timeout l n).err.isSome = true →
      (pollGo cond timeout l n).elapsed = timeout := by
  intro l
  induction l with
  | nil => intro n _; simp [pollGo]
  | cons t rest ih =>
      intro n h
      by_cases hc : cond n = true
      · simp [pollGo, hc] at h
      · simp only [pollGo, hc, ite_false, Bool.false_eq_true] at h ⊢
        exact ih (n + 1) h

/-- Both branches of newOauthClient return the same state: the token-call
count advanced by the poll attempts and the trace extended by the warm-up
event. -/
theorem newOauthClient_snd (env : Env) (ctx : Ctx) (tokenSource : Option TokenSource)
    (st : BuildState) :
    (newOauthClient env ctx tokenSource st).2 =
      { tokenCalls := st.tokenCalls + (warmupOutcome env tokenSource st.tokenCalls).attempts,
        trace := st.trace ++ [Event.warmupEv] } := by
  unfold newOauthClient
  cases h : (warmupOutcome env tokenSource st.tokenCalls).err <;> simp [h]

/-- A successful stable-client construction extends the trace by exactly the
warm-up event and the stable-client event. -/
theorem createService_ok_trace (env : Env) (ctx : Ctx) (v : String)
    (ts : Option TokenSource) (st : BuildState) (svc : Service) (st2 : BuildState)
    (h : createCloudServiceWithDefaultServiceAccount env ctx v ts st =
      (Except.ok svc, st2)) :
    st2.trace = st.trace ++ [Event.warmupEv, Event.stableClientEv] := by
  rcases hn : newOauthClient env ctx ts st with ⟨res, st1⟩
  have hst1 : st1 =
      { tokenCalls := st.tokenCalls + (warmupOutcome env ts st.tokenCalls).attempts,
        trace := st.trace ++ [Event.warmupEv] } := by
    have h2 := newOauthClient_snd env ctx ts st
    rw [hn] at h2
    exact h2
  unfold createCloudServiceWithDefaultServiceAccount at h
  rw [hn] at h
  cases res with
  | error e => simp at h
  | ok client =>
      cases hc : env.computeNew with
      | some e => simp [hc] at h
      | none =>
          simp [hc] at h
          rw [← h.2, hst1]
          simp

/-- A failed stable-client construction leaves a trace with the warm-up event
and possibly the stable-client event, but nothing later. -/
theorem createService_err_trace (env : Env) (ctx : Ctx) (v : String)
    (ts : Option TokenSource) (st : BuildState) (e : String) (st2 : BuildState)
    (h : createCloudServiceWithDefaultServiceAccount env ctx v ts st =
      (Except.error e, st2)) :
    st2.trace = st.trace ++ [Event.warmupEv] ∨
    st2.trace = st.trace ++ [Event.warmupEv, Event.stableClientEv] := by
  rcases hn : newOauthClient env ctx ts st with ⟨res, st1⟩
  have hst1 : st1 =
      { tokenCalls := st.tokenCalls + (warmupOutcome env ts st.tokenCalls).attempts,
        trace := st.trace ++ [Event.warmupEv] } := by
    have h2 := newOauthClient_snd env ctx ts st
    rw [hn] at h2
    exact h2
  unfold createCloudServiceWithDefaultServiceAccount at h
  rw [hn] at h
  cases res with
  | error e2 =>
      simp at h
      left
      rw [← h.2, hst1]
  | ok client =>
      cases hc : env.computeNew with
      | some e2 =>
          simp [hc] at h
          right
          rw [← h.2, hst1]
          simp
      | none => simp [hc] at h

/-- A successful alpha-client construction extends the trace by exactly the
warm-up event and the alpha-client event. -/
theorem createAlpha_ok_trace (env : Env) (ctx : Ctx) (v : String)
    (ts : Option TokenSource) (st : BuildState) (svc : Service) (st2 : BuildState)
    (h : createAlphaCloudService env ctx v ts st = (Except.ok svc, st2)) :
    st2.trace = st.trace ++ [Event.warmupEv, Event.alphaClientEv] := by
  rcases hn : newOauthClient env ctx ts st with ⟨res, st1⟩
  have hst1 : st1 =
      { tokenCalls := st.tokenCalls + (warmupOutcome env ts st.tokenCalls).attempts,
        trace := st.trace ++ [Event.warmupEv] } := by
    have h2 := newOauthClient_snd env ctx ts st
    rw [hn] at h2
    exact h2
  unfold createAlphaCloudService at h
  rw [hn] at h
  cases res with
  | error e => simp at h
  | ok client =>
      cases hc : env.alphaNew with
      | some e => simp [hc] at h
      | none =>
          simp [hc] at h
          rw [← h.2, hst1]
          simp

/-- Stage equation: a config-resolution failure is returned at once. -/
theorem ccpStageConfigErr (env : Env) (ctx : Ctx) (v p e : String)
    (h1 : (readConfig env p).result = Except.error e) :
    CreateCloudProvider env ctx v p =
      (Except.error e, { tokenCalls := 0, trace := [Event.readConfigEv] }) := by
  unfold CreateCloudProvider
  simp only [h1]

/-- Stage equation: a token-source error is returned next. -/
theorem ccpStageTokenErr (env : Env) (ctx : Ctx) (v p : String)
    (cf : Option ConfigFile) (e : String)
    (h1 : (readConfig env p).result = Except.ok cf)
    (h2 : (generateTokenSource env cf).2 = some e) :
    CreateCloudProvider env ctx v p =
      (Except.error e, { tokenCalls := 0, trace := traceAfterTokenSource }) := by
  unfold CreateCloudProvider
  simp only [h1, h2]

/-- Stage equation: a stable-client failure is returned with its state. -/
theorem ccpStageStableErr (env : Env) (ctx : Ctx) (v p : String)
    (cf : Option ConfigFile) (e : String) (st2 : BuildState)
    (h1 : (readConfig env p).result = Except.ok cf)
    (h2 : (generateTokenSource env cf).2 = none)
    (h3 : createCloudService env ctx v (generateTokenSource env cf).1
        { tokenCalls := 0, trace := traceAfterTokenSource } = (Except.error e, st2)) :
    CreateCloudProvider env ctx v p = (Except.error e, st2) := by
  unfold CreateCloudProvider
  simp only [h1, h2, h3]

/-- Stage equation: an alpha-client failure is returned with its state. -/
theorem ccpStageAlphaErr (env : Env) (ctx : Ctx) (v p : String)
    (cf : Option ConfigFile) (svc : Service) (st2 : BuildState) (e : String)
    (st3 : BuildState)
    (h1 : (readConfig env p).result = Except.ok cf)
    (h2 : (generateTokenSource env cf).2 = none)
    (h3 : createCloudService env ctx v (generateTokenSource env cf).1
        { tokenCalls := 0, trace := traceAfterTokenSource } = (Except.ok svc, st2))
    (h4 : createAlphaCloudService env ctx v (generateTokenSource env cf).1 st2 =
        (Except.error e, st3)) :
    CreateCloudProvider env ctx v p = (Except.error e, st3) := by
  unfold CreateCloudProvider
  simp only [h1, h2, h3, h4]

/-- Stage equation: a project/zone failure is returned wrapped. -/
theorem ccpStagePzErr (env : Env) (ctx : Ctx) (v p : String)
    (cf : Option ConfigFile) (svc : Service) (st2 : BuildState) (alphasvc : Service)
    (st3 : BuildState) (e : String)
    (h1 : (readConfig env p).result = Except.ok cf)
    (h2 : (generateTokenSource env cf).2 = none)
    (h3 : createCloudService env ctx v (generateTokenSource env cf).1
        { tokenCalls := 0, trace := traceAfterTokenSource } = (Except.ok svc, st2))
    (h4 : createAlphaCloudService env ctx v (generateTokenSource env cf).1 st2 =
        (Except.ok alphasvc, st3))
    (h5 : getProjectAndZone env cf = Except.error e) :
    CreateCloudProvider env ctx v p =
      (Except.error ("Failed getting Project and Zone: " ++ e),
       { st3 with trace := st3.trace ++ [Event.getProjectAndZoneEv] }) := by
  unfold CreateCloudProvider
  simp only [h1, h2, h3, h4, h5]

/-- Stage equation: full success assembles the populated provider. -/
theorem ccpStageOk (env : Env) (ctx : Ctx) (v p : String)
    (cf : Option ConfigFile) (svc : Service) (st2 : BuildState) (alphasvc : Service)
    (st3 : BuildState) (pz : String × String)
    (h1 : (readConfig env p).result = Except.ok cf)
    (h2 : (generateTokenSource env cf).2 = none)
    (h3 : createCloudService env ctx v (generateTokenSource env cf).1
        { tokenCalls := 0, trace := traceAfterTokenSource } = (Except.ok svc, st2))
    (h4 : createAlphaCloudService env ctx v (generateTokenSource env cf).1 st2 =
        (Except.ok alphasvc, st3))
    (h5 : getProjectAndZone env cf = Except.ok pz) :
    CreateCloudProvider env ctx v p =
      (Except.ok
        { service := svc, alphaService := alphasvc, project := pz.1,
          zone := pz.2, zonesCache := [] },
       { st3 with trace := st3.trace ++ [Event.getProjectAndZoneEv] }) := by
  unfold CreateCloudProvider
  simp only [h1, h2, h3, h4, h5]

/-! ## The claims -/

/-- C1: the warm-up in newOauthClient polls the token source on a 5-second
cadence starting immediately (condition runs at times 0, 5, 10, 15, 20, 25
within the 30-second ceiling); against a token source whose Token call always
errors it exhausts the full 30-second ceiling and returns the fatal poll
timeout error, constructing no client; against a source that fails on its
first attempt and succeeds on its second it returns the client after the
attempt at time 5, without waiting out the remaining budget. -/
theorem newOauthClient_warmup_bounds (env : Env) (ctx : Ctx)
    (ts : Option TokenSource) :
    pollTimes 5 30 = [0, 5, 10, 15, 20, 25] ∧
    ((∀ n, tokenOk env ts n = false) →
       warmupOutcome env ts 0 =
         { err := some errWaitTimeout, elapsed := 30, attempts := 6 } ∧
       (newOauthClient env ctx ts { tokenCalls := 0, trace := [] }).1 =
         Except.error errWaitTimeout) ∧
    ((tokenOk env ts 0 = false ∧ tokenOk env ts 1 = true) →
       warmupOutcome env ts 0 = { err := none, elapsed := 5, attempts := 2 } ∧
       (newOauthClient env ctx ts { tokenCalls := 0, trace := [] }).1 =
         Except.ok { ctx := ctx, tokenSource := ts }) := by
  refine ⟨rfl, ?_, ?_⟩
  · intro h
    have hcond : ∀ i, warmupCond env ts 0 i = false := by
      intro i; simp [warmupCond, h]
    have hout : warmupOutcome env ts 0 =
        { err := some errWaitTimeout, elapsed := 30, attempts := 6 } := by
      unfold warmupOutcome pollImmediate
      rw [pollGo_allFail (warmupCond env ts 0) 30 hcond (pollTimes 5 30) 0]
      rfl
    refine ⟨hout, ?_⟩
    unfold newOauthClient
    simp [hout]
  · rintro ⟨h0, h1⟩
    have hout : warmupOutcome env ts 0 = { err := none, elapsed := 5, attempts := 2 } := by
      unfold warmupOutcome pollImmediate
      rw [show pollTimes 5 30 = [0, 5, 10, 15, 20, 25] from rfl]
      simp [pollGo, warmupCond, h0, h1]
    refine ⟨hout, ?_⟩
    unfold newOauthClient
    simp [hout]

/-- C2: for a configuration with empty or absent tokenURL, generateTokenSource
takes the default branch; with GOOGLE_APPLICATION_CREDENTIALS absent and the
OnGCE probe true it returns the instance-metadata-backed ComputeTokenSource
re-scoped to the cloud-platform scope, and with the variable present or the
probe false it returns the default application-credential source unmodified,
propagating the error from its construction. -/
theorem generateTokenSource_default_selection (env : Env) (cf : Option ConfigFile) :
    (tokenURLUnset cf = true → env.googleAppCreds = none → env.onGCE = true →
       (generateTokenSource env cf).1 =
         some (ComputeTokenSource "" CloudPlatformScope)) ∧
    (tokenURLUnset cf = true → (env.googleAppCreds ≠ none ∨ env.onGCE = false) →
       generateTokenSource env cf = (defaultSourceValue env, defaultSourceError env)) := by
  have halt : tokenURLUnset cf = true → altTokenCondition cf = false := by
    cases cf with
    | none => intro _; rfl
    | some c =>
        intro h
        simp only [tokenURLUnset, beq_iff_eq] at h
        simp [altTokenCondition, h]
  constructor
  · intro hu hg hon
    simp [generateTokenSource, halt hu, generateDefaultTokenSource, hg, hon]
  · intro hu hor
    rcases hor with hg | hon
    · cases hgac : env.googleAppCreds with
      | none => exact absurd hgac hg
      | some g => simp [generateTokenSource, halt hu, generateDefaultTokenSource, hgac]
    · cases hgac : env.googleAppCreds with
      | none => simp [generateTokenSource, halt hu, generateDefaultTokenSource, hgac, hon]
      | some g => simp [generateTokenSource, halt hu, generateDefaultTokenSource, hgac]

/-- C3: for a present configuration whose tokenURL is non-empty and not the
literal "nil", generateTokenSource returns the alternate token source built
from (tokenURL, tokenBody) with no error, for every environment (so regardless
of the GOOGLE_APPLICATION_CREDENTIALS variable or the OnGCE probe). -/
theorem generateTokenSource_alt (env : Env) (c : ConfigFile)
    (h1 : c.global.tokenURL ≠ "") (h2 : c.global.tokenURL ≠ "nil") :
    generateTokenSource env (some c) =
      (some (NewAltTokenSource c.global.tokenURL c.global.tokenBody), none) := by
  have hcond : altTokenCondition (some c) = true := by
    simp [altTokenCondition, Bool.and_eq_true, bne_iff_ne]
    exact ⟨h1, h2⟩
  simp [generateTokenSource, hcond, configTokenURL, configTokenBody]

/-- Witness for C3 at a concrete input: the alternate branch fires for cfgAlt
in the healthy environment. -/
theorem generateTokenSource_alt_witness :
    generateTokenSource envGood (some cfgAlt) =
      (some (NewAltTokenSource "https://alt.example/token" "body"), none) :=
  generateTokenSource_alt envGood cfgAlt (by decide) (by decide)

/-- C7: IsGCEError is true exactly when the error is a googleapi error one of
whose sub-errors carries the requested reason; every other error value (plain
or nil) classifies false for every reason (the function is total, so it never
panics); IsGCENotFoundError and IsGCEInvalidError are IsGCEError specialised
to "notFound" and "invalid", and an error with sub-errors [{reason:"notFound"}]
satisfies the former and not the latter. -/
theorem IsGCEError_classification (err : GoError) (reason : String) :
    (IsGCEError err reason = true ↔
       ∃ ge, err = GoError.googleapi ge ∧ ∃ item ∈ ge.errors, item.reason = reason) ∧
    (IsGCENotFoundError err = IsGCEError err "notFound") ∧
    (IsGCEInvalidError err = IsGCEError err "invalid") ∧
    IsGCENotFoundError (GoError.googleapi { errors := [{ reason := "notFound" }] }) = true ∧
    IsGCEInvalidError (GoError.googleapi { errors := [{ reason := "notFound" }] }) = false ∧
    (∀ m, IsGCEError (GoError.plain m) reason = false) ∧
    IsGCEError GoError.nilError reason = false := by
  refine ⟨?_, rfl, rfl, by decide, by decide, fun m => rfl, rfl⟩
  cases err with
  | googleapi ge => simp [IsGCEError, List.any_eq_true, beq_iff_eq]
  | plain m => simp [IsGCEError]
  | nilError => simp [IsGCEError]

/-- C8: readConfig with the empty path yields the absent configuration and no
error; with a non-empty path it fails when the file cannot be opened, fails
when the opened file cannot be parsed, and in every run that opened the file
(parse failure or success) the opened handle is in the closed-handles list. -/
theorem readConfig_contract (env : Env) (path : String) :
    readConfig env "" = { result := Except.ok none, closedHandles := [] } ∧
    (∀ e, path ≠ "" → env.openFile path = Except.error e →
       readConfig env path =
         { result := Except.error
             ("could not open cloud provider configuration at " ++ path ++ ": " ++ e),
           closedHandles := [] }) ∧
    (∀ h e, path ≠ "" → env.openFile path = Except.ok h →
       env.parseConfig h = Except.error e →
       readConfig env path =
         { result := Except.error
             ("could not read cloud provider configuration at " ++ path ++ ": " ++ e),
           closedHandles := [h] }) ∧
    (∀ h cfg, path ≠ "" → env.openFile path = Except.ok h →
       env.parseConfig h = Except.ok cfg →
       readConfig env path = { result := Except.ok (some cfg), closedHandles := [h] }) ∧
    (∀ h, path ≠ "" → env.openFile path = Except.ok h →
       h ∈ (readConfig env path).closedHandles) := by
  refine ⟨by simp [readConfig], ?_, ?_, ?_, ?_⟩
  · intro e hp ho
    simp [readConfig, hp, ho]
  · intro h e hp ho hparse
    simp [readConfig, hp, ho, hparse]
  · intro h cfg hp ho hparse
    simp [readConfig, hp, ho, hparse]
  · intro h hp ho
    cases hparse : env.parseConfig h with
    | error e => simp [readConfig, hp, ho, hparse]
    | ok cfg => simp [readConfig, hp, ho, hparse]

/-- C6: getProjectAndZone resolves zone and project independently: a non-empty
config field is used verbatim, an empty or absent one falls back to the
metadata service whose failure is fatal (the error is returned); in
particular, with a config that sets only zone=us-central1-a and a metadata
project of "my-project", the result is exactly ("my-project", "us-central1-a"). -/
theorem getProjectAndZone_resolution (env : Env) (c : ConfigFile) :
    (c.global.zone ≠ "" → c.global.projectId ≠ "" →
       getProjectAndZone env (some c) = Except.ok (c.global.projectId, c.global.zone)) ∧
    (c.global.zone ≠ "" → c.global.projectId = "" →
       getProjectAndZone env (some c) =
         env.metadataProjectID.map (fun pid => (pid, c.global.zone))) ∧
    (c.global.zone = "" → c.global.projectId ≠ "" →
       getProjectAndZone env (some c) =
         env.metadataZone.map (fun z => (c.global.projectId, z))) ∧
    (c.global.zone = "" → c.global.projectId = "" →
       getProjectAndZone env (some c) =
         env.metadataZone.bind
           (fun z => env.metadataProjectID.map (fun pid => (pid, z)))) ∧
    (getProjectAndZone env none =
       env.metadataZone.bind
         (fun z => env.metadataProjectID.map (fun pid => (pid, z)))) ∧
    (env.metadataProjectID = Except.ok "my-project" →
       getProjectAndZone env (some cfgZoneOnly) =
         Except.ok ("my-project", "us-central1-a")) := by
  refine ⟨?_, ?_, ?_, ?_, ?_, ?_⟩
  · intro hz hp
    simp [getProjectAndZone, hz, hp]
  · intro hz hp
    cases hm : env.metadataProjectID with
    | error e => simp [getProjectAndZone, hz, hp, hm, Except.map]
    | ok pid => simp [getProjectAndZone, hz, hp, hm, Except.map]
  · intro hz hp
    cases hm : env.metadataZone with
    | error e => simp [getProjectAndZone, hz, hp, hm, Except.map]
    | ok z => simp [getProjectAndZone, hz, hp, hm, Except.map]
  · intro hz hp
    cases hm : env.metadataZone with
    | error e => simp [getProjectAndZone, hz, hp, hm, Except.bind]
    | ok z =>
        cases hm2 : env.metadataProjectID with
        | error e => simp [getProjectAndZone, hz, hp, hm, hm2, Except.bind, Except.map]
        | ok pid => simp [getProjectAndZone, hz, hp, hm, hm2, Except.bind, Except.map]
  · cases hm : env.metadataZone with
    | error e => simp [getProjectAndZone, hm, Except.bind]
    | ok z =>
        cases hm2 : env.metadataProjectID with
        | error e => simp [getProjectAndZone, hm, hm2, Except.bind, Except.map]
        | ok pid => simp [getProjectAndZone, hm, hm2, Except.bind, Except.map]
  · intro hm
    simp [getProjectAndZone, cfgZoneOnly, hm]

/-- C10: when the default-application-credential branch is taken (the
alternate-URL condition is false) and google.DefaultTokenSource errored, that
error is the second component of generateTokenSource even when the
environment variable is absent and the probe true (the case in which the
metadata-backed override replaces the first component), so CreateCloudProvider
fails with that error whenever it reaches token-source construction. -/
theorem generateTokenSource_propagates_adc_error (env : Env) (cf : Option ConfigFile)
    (e : String) (halt : altTokenCondition cf = false)
    (herr : env.defaultTokenSource = Except.error e) :
    (generateTokenSource env cf).2 = some e ∧
    (env.googleAppCreds = none → env.onGCE = true →
       (generateTokenSource env cf).1 =
         some (ComputeTokenSource "" CloudPlatformScope)) ∧
    (∀ ctx vendorVersion configPath,
       (readConfig env configPath).result = Except.ok cf →
       (CreateCloudProvider env ctx vendorVersion configPath).1 = Except.error e) := by
  have hsnd : (generateTokenSource env cf).2 = some e := by
    cases hgac : env.googleAppCreds with
    | none =>
        cases hon : env.onGCE <;>
          simp [generateTokenSource, halt, generateDefaultTokenSource, defaultSourceError,
            hgac, hon, herr]
    | some g =>
        simp [generateTokenSource, halt, generateDefaultTokenSource, defaultSourceError,
          hgac, herr]
  refine ⟨hsnd, ?_, ?_⟩
  · intro hgac hon
    simp [generateTokenSource, halt, generateDefaultTokenSource, hgac, hon]
  · intro ctx vendorVersion configPath hread
    simp [CreateCloudProvider, hread, hsnd]

/-- Witness for C10: with failing default credentials, no environment
variable and the probe true, the error is propagated and provider
construction fails, although the override source was substituted. -/
theorem generateTokenSource_propagates_adc_error_witness :
    (generateTokenSource envAdcErr none).2 = some "adc error" ∧
    (generateTokenSource envAdcErr none).1 =
      some (ComputeTokenSource "" CloudPlatformScope) ∧
    (CreateCloudProvider envAdcErr ctxLive "v1" "").1 = Except.error "adc error" := by
  have h := generateTokenSource_propagates_adc_error envAdcErr none "adc error" rfl rfl
  exact ⟨h.1, h.2.1 rfl rfl, h.2.2 ctxLive "v1" "" rfl⟩

/-- C4 amended: the warm-up retry loop in newOauthClient does not observe the
context of the caller at all (wait.PollImmediate has no context parameter): for any
two contexts — cancelled or not — the resulting build state and the
error/success outcome coincide, and a warm-up that fails always ran to the
full 30-second ceiling. The context only parameterises the client returned
after a successful warm-up. -/
theorem newOauthClient_ignores_cancellation (env : Env) (ctxA ctxB : Ctx)
    (ts : Option TokenSource) (st : BuildState) :
    (newOauthClient env ctxA ts st).2 = (newOauthClient env ctxB ts st).2 ∧
    (∀ e, (newOauthClient env ctxA ts st).1 = Except.error e ↔
          (newOauthClient env ctxB ts st).1 = Except.error e) ∧
    ((warmupOutcome env ts st.tokenCalls).err.isSome = true →
       (warmupOutcome env ts st.tokenCalls).elapsed = 30) := by
  refine ⟨?_, ?_, ?_⟩
  · rw [newOauthClient_snd, newOauthClient_snd]
  · intro e
    unfold newOauthClient
    cases h : (warmupOutcome env ts st.tokenCalls).err <;> simp [h]
  · intro h
    unfold warmupOutcome pollImmediate
    apply pollGo_err_elapsed
    unfold warmupOutcome pollImmediate at h
    exact h

/-- Counterexample for C4: the context of the caller is cancelled at time 0, the
token source always errors, and yet the warm-up loop still runs all six
attempts to the full 30-second ceiling before failing — it does not stop
retrying after cancellation. -/
theorem newOauthClient_cancelled_still_polls :
    ctxCancelled.cancelledAt = some 0 ∧
    (warmupOutcome envAlwaysFail (some tsDefault) 0).attempts = 6 ∧
    (warmupOutcome envAlwaysFail (some tsDefault) 0).elapsed = 30 ∧
    (newOauthClient envAlwaysFail ctxCancelled (some tsDefault)
        { tokenCalls := 0, trace := [] }).1 = Except.error errWaitTimeout := by
  refine ⟨rfl, by decide, by decide, by decide⟩

/-- C9 amended: on every successful provider construction the invocation
trace is exactly readConfig, generateTokenSource, warm-up, stable-client
construction, warm-up again, alpha-client construction, getProjectAndZone:
config resolution, token-source construction and project/zone resolution run
exactly once, but the token warm-up runs once per service client — twice in
all — and its second run comes after the stable client was already built. -/
theorem CreateCloudProvider_success_trace (env : Env) (ctx : Ctx)
    (vendorVersion configPath : String)
    (h : exceptIsOk (CreateCloudProvider env ctx vendorVersion configPath).1 = true) :
    (CreateCloudProvider env ctx vendorVersion configPath).2.trace =
      [Event.readConfigEv, Event.generateTokenSourceEv, Event.warmupEv,
       Event.stableClientEv, Event.warmupEv, Event.alphaClientEv,
       Event.getProjectAndZoneEv] := by
  cases h1 : (readConfig env configPath).result with
  | error e =>
      rw [ccpStageConfigErr env ctx vendorVersion configPath e h1] at h
      simp [exceptIsOk] at h
  | ok cf =>
      cases h2 : (generateTokenSource env cf).2 with
      | some e =>
          rw [ccpStageTokenErr env ctx vendorVersion configPath cf e h1 h2] at h
          simp [exceptIsOk] at h
      | none =>
          rcases h3 : createCloudService env ctx vendorVersion
              (generateTokenSource env cf).1
              { tokenCalls := 0, trace := traceAfterTokenSource } with ⟨res2, st2⟩
          cases res2 with
          | error e =>
              rw [ccpStageStableErr env ctx vendorVersion configPath cf e st2 h1 h2 h3] at h
              simp [exceptIsOk] at h
          | ok svc =>
              rcases h4 : createAlphaCloudService env ctx vendorVersion
                  (generateTokenSource env cf).1 st2 with ⟨res3, st3⟩
              cases res3 with
              | error e =>
                  rw [ccpStageAlphaErr env ctx vendorVersion configPath cf svc st2 e st3
                    h1 h2 h3 h4] at h
                  simp [exceptIsOk] at h
              | ok alphasvc =>
                  have t2 := createService_ok_trace env ctx vendorVersion
                    (generateTokenSource env cf).1
                    { tokenCalls := 0, trace := traceAfterTokenSource } svc st2
                    (by rw [← h3]; rfl)
                  have t3 := createAlpha_ok_trace env ctx vendorVersion
                    (generateTokenSource env cf).1 st2 alphasvc st3 h4
                  cases h5 : getProjectAndZone env cf with
                  | error e =>
                      rw [ccpStagePzErr env ctx vendorVersion configPath cf svc st2
                        alphasvc st3 e h1 h2 h3 h4 h5] at h
                      simp [exceptIsOk] at h
                  | ok pz =>
                      rw [ccpStageOk env ctx vendorVersion configPath cf svc st2
                        alphasvc st3 pz h1 h2 h3 h4 h5]
                      simp only [t3, t2, traceAfterTokenSource]
                      rfl

/-- Witness for the amended C9: the healthy environment constructs a provider
and its trace is the seven-event sequence with two warm-ups. -/
theorem CreateCloudProvider_success_trace_witness :
    (CreateCloudProvider envGood ctxLive "v1" "/etc/gce.conf").2.trace =
      [Event.readConfigEv, Event.generateTokenSourceEv, Event.warmupEv,
       Event.stableClientEv, Event.warmupEv, Event.alphaClientEv,
       Event.getProjectAndZoneEv] :=
  CreateCloudProvider_success_trace envGood ctxLive "v1" "/etc/gce.conf" (by decide)

/-- Counterexample for C9: in a fully healthy construction the warm-up event
occurs twice in the invocation trace, not exactly once, and its second
occurrence comes after the stable-client event. -/
theorem CreateCloudProvider_double_warmup :
    exceptIsOk (CreateCloudProvider envGood ctxLive "v1" "/etc/gce.conf").1 = true ∧
    (CreateCloudProvider envGood ctxLive "v1" "/etc/gce.conf").2.trace.count
        Event.warmupEv = 2 ∧
    (CreateCloudProvider envGood ctxLive "v1" "/etc/gce.conf").2.trace =
      [Event.readConfigEv, Event.generateTokenSourceEv, Event.warmupEv,
       Event.stableClientEv, Event.warmupEv, Event.alphaClientEv,
       Event.getProjectAndZoneEv] := by
  refine ⟨by decide, by decide, by decide⟩

/-- C5: CreateCloudProvider sequences config resolution, token-source
construction, the stable client (warm-up then compute.New), the alpha client
(warm-up then alpha.New) and project/zone resolution, returning the first
fatal error of the earliest failing stage; a stable-client failure aborts the
run with the alpha client and project/zone resolution never invoked; on full
success the result is the fully populated CloudProvider (two stamped services,
project, zone, fresh empty cache) — and the Except result carries either an
error or a provider, never a partial provider. -/
theorem CreateCloudProvider_sequencing (env : Env) (ctx : Ctx) (v p : String) :
    (∀ e, (readConfig env p).result = Except.error e →
       CreateCloudProvider env ctx v p =
         (Except.error e, { tokenCalls := 0, trace := [Event.readConfigEv] })) ∧
    (∀ cf e, (readConfig env p).result = Except.ok cf →
       (generateTokenSource env cf).2 = some e →
       CreateCloudProvider env ctx v p =
         (Except.error e, { tokenCalls := 0, trace := traceAfterTokenSource })) ∧
    (∀ cf e st2, (readConfig env p).result = Except.ok cf →
       (generateTokenSource env cf).2 = none →
       createCloudService env ctx v (generateTokenSource env cf).1
           { tokenCalls := 0, trace := traceAfterTokenSource } = (Except.error e, st2) →
       CreateCloudProvider env ctx v p = (Except.error e, st2) ∧
         Event.alphaClientEv ∉ st2.trace ∧
         Event.getProjectAndZoneEv ∉ st2.trace) ∧
    (∀ cf svc st2 e st3, (readConfig env p).result = Except.ok cf →
       (generateTokenSource env cf).2 = none →
       createCloudService env ctx v (generateTokenSource env cf).1
           { tokenCalls := 0, trace := traceAfterTokenSource } = (Except.ok svc, st2) →
       createAlphaCloudService env ctx v (generateTokenSource env cf).1 st2 =
         (Except.error e, st3) →
       CreateCloudProvider env ctx v p = (Except.error e, st3)) ∧
    (∀ cf svc st2 alphasvc st3 e, (readConfig env p).result = Except.ok cf →
       (generateTokenSource env cf).2 = none →
       createCloudService env ctx v (generateTokenSource env cf).1
           { tokenCalls := 0, trace := traceAfterTokenSource } = (Except.ok svc, st2) →
       createAlphaCloudService env ctx v (generateTokenSource env cf).1 st2 =
         (Except.ok alphasvc, st3) →
       getProjectAndZone env cf = Except.error e →
       CreateCloudProvider env ctx v p =
         (Except.error ("Failed getting Project and Zone: " ++ e),
          { st3 with trace := st3.trace ++ [Event.getProjectAndZoneEv] })) ∧
    (∀ cf svc st2 alphasvc st3 pz, (readConfig env p).result = Except.ok cf →
       (generateTokenSource env cf).2 = none →
       createCloudService env ctx v (generateTokenSource env cf).1
           { tokenCalls := 0, trace := traceAfterTokenSource } = (Except.ok svc, st2) →
       createAlphaCloudService env ctx v (generateTokenSource env cf).1 st2 =
         (Except.ok alphasvc, st3) →
       getProjectAndZone env cf = Except.ok pz →
       CreateCloudProvider env ctx v p =
         (Except.ok
           { service := svc, alphaService := alphasvc, project := pz.1,
             zone := pz.2, zonesCache := [] },
          { st3 with trace := st3.trace ++ [Event.getProjectAndZoneEv] })) := by
  refine ⟨?_, ?_, ?_, ?_, ?_, ?_⟩
  · intro e h1
    exact ccpStageConfigErr env ctx v p e h1
  · intro cf e h1 h2
    exact ccpStageTokenErr env ctx v p cf e h1 h2
  · intro cf e st2 h1 h2 h3
    refine ⟨ccpStageStableErr env ctx v p cf e st2 h1 h2 h3, ?_, ?_⟩ <;>
    · have h3u : createCloudServiceWithDefaultServiceAccount env ctx v
          (generateTokenSource env cf).1
          { tokenCalls := 0, trace := traceAfterTokenSource } = (Except.error e, st2) := by
        rw [← h3]; rfl
      rcases createService_err_trace env ctx v (generateTokenSource env cf).1
          { tokenCalls := 0, trace := traceAfterTokenSource } e st2 h3u with ht | ht <;>
        rw [ht] <;> simp [traceAfterTokenSource]
  · intro cf svc st2 e st3 h1 h2 h3 h4
    exact ccpStageAlphaErr env ctx v p cf svc st2 e st3 h1 h2 h3 h4
  · intro cf svc st2 alphasvc st3 e h1 h2 h3 h4 h5
    exact ccpStagePzErr env ctx v p cf svc st2 alphasvc st3 e h1 h2 h3 h4 h5
  · intro cf svc st2 alphasvc st3 pz h1 h2 h3 h4 h5
    exact ccpStageOk env ctx v p cf svc st2 alphasvc st3 pz h1 h2 h3 h4 h5

/-! ## Concrete evaluations showing the guarded scenarios above are inhabited -/

/-- The two warm-up scenarios on concrete sources: a source that always
errors exhausts all six attempts and the 30-second ceiling; a source that
fails once and then succeeds returns at time 5 after two attempts. -/
theorem warmup_scenarios_demo :
    warmupOutcome envAlwaysFail (some tsDefault) 0 =
      { err := some errWaitTimeout, elapsed := 30, attempts := 6 } ∧
    warmupOutcome envSecondTry (some tsDefault) 0 =
      { err := none, elapsed := 5, attempts := 2 } := by
  refine ⟨by decide, by decide⟩

/-- The metadata-backed override fires on a concrete environment with no
GOOGLE_APPLICATION_CREDENTIALS, on GCE, and healthy default credentials. -/
theorem generateTokenSource_override_demo :
    generateTokenSource { envGood with googleAppCreds := none } none =
      (some (ComputeTokenSource "" CloudPlatformScope), none) := by
  decide

/-- A concrete parse failure still closes the opened file handle. -/
theorem readConfig_parse_error_demo :
    readConfig { envGood with parseConfig := fun _ => Except.error "bad syntax" }
        "/etc/gce.conf" =
      { result := Except.error
          "could not read cloud provider configuration at /etc/gce.conf: bad syntax",
        closedHandles := [7] } := by
  decide

/-- Concrete identity resolution: config zone wins, metadata supplies the
project; and a metadata-zone failure is fatal when the config has no zone. -/
theorem getProjectAndZone_demo :
    getProjectAndZone envGood (some cfgZoneOnly) =
      Except.ok ("my-project", "us-central1-a") ∧
    getProjectAndZone { envGood with metadataZone := Except.error "md down" } none =
      Except.error "md down" := by
  refine ⟨by decide, by decide⟩

end GceCloudProvider
